import Mathlib

/-!
Verification of the aarch64 hypervisor abstraction layer
(register/state codec, capability negotiator, GIC construction,
trapped-instruction emulator) against its design specification.

Machine integers are modelled as `Nat` with explicit `% 2 ^ w`
truncation exactly where the source narrows a value.
-/

namespace HvSpec

/-! ## Register/State codec (kvm/aarch64/mod.rs)

`kvm_regs`, `user_pt_regs` and `user_fpsimd_state` mirror the kernel ABI
structures used by the source (their layout is spelled out in the source
comment at kvm/aarch64/mod.rs:59-74).  Fixed-size arrays (`[u64; 31]`,
`[u64; 5]`, `[u128; 32]`, `[u32; 2]`) are modelled as `List Nat`; the
conversions are structural so the element count never matters to them. -/

structure user_pt_regs where
  regs : List Nat
  sp : Nat
  pc : Nat
  pstate : Nat
  deriving DecidableEq, Repr

structure user_fpsimd_state where
  vregs : List Nat
  /-- `u32` in the kernel ABI. -/
  fpsr : Nat
  /-- `u32` in the kernel ABI. -/
  fpcr : Nat
  /-- `__reserved: [u32; 2]`, populated by `Default` in the conversion. -/
  reserved : List Nat
  deriving DecidableEq, Repr

structure kvm_regs where
  regs : user_pt_regs
  sp_el1 : Nat
  elr_el1 : Nat
  spsr : List Nat
  fp_regs : user_fpsimd_state
  deriving DecidableEq, Repr

/-- Modelled from the spec: the backend-neutral aarch64 `StandardRegisters`
(defined in `crate::arch::aarch64`, which is outside the provided sources).
Its fields are exactly those read and written by the two `From` impls in
kvm/aarch64/mod.rs:135-173; `fpsr`/`fpcr` are the 64-bit neutral widenings
of the native 32-bit status fields. -/
structure StandardRegisters where
  gpr : List Nat
  sp : Nat
  pc : Nat
  pstate : Nat
  sp_el1 : Nat
  elr_el1 : Nat
  spsr : List Nat
  vregs : List Nat
  fpsr : Nat
  fpcr : Nat
  deriving DecidableEq, Repr

/-- `impl From<StandardRegisters> for kvm_regs` (kvm/aarch64/mod.rs:135-156).
`regs.fpsr as u32` / `regs.fpcr as u32` narrow by truncation, and
`..Default::default()` zero-fills the reserved words. -/
def kvm_regs.from_standard (regs : StandardRegisters) : kvm_regs :=
  { regs := { regs := regs.gpr
              sp := regs.sp
              pc := regs.pc
              pstate := regs.pstate }
    sp_el1 := regs.sp_el1
    elr_el1 := regs.elr_el1
    spsr := regs.spsr
    fp_regs := { vregs := regs.vregs
                 fpsr := regs.fpsr % 2 ^ 32
                 fpcr := regs.fpcr % 2 ^ 32
                 reserved := [0, 0] } }

/-- `impl From<kvm_regs> for StandardRegisters` (kvm/aarch64/mod.rs:158-173).
`fpsr as u64` / `fpcr as u64` widen a `u32` without sign extension. -/
def StandardRegisters.from_kvm (regs : kvm_regs) : StandardRegisters :=
  { gpr := regs.regs.regs
    sp := regs.regs.sp
    pc := regs.regs.pc
    pstate := regs.regs.pstate
    sp_el1 := regs.sp_el1
    elr_el1 := regs.elr_el1
    spsr := regs.spsr
    vregs := regs.fp_regs.vregs
    fpsr := regs.fp_regs.fpsr
    fpcr := regs.fp_regs.fpcr }

/-- Validity of a native `kvm_regs` value: the `u32` status fields hold
32-bit values and the reserved words are zero (their unique `Default`
state, which is the only state the codec ever produces or the kernel
contract allows). -/
def kvm_regs.valid (r : kvm_regs) : Prop :=
  r.fp_regs.fpsr < 2 ^ 32 ∧ r.fp_regs.fpcr < 2 ^ 32 ∧ r.fp_regs.reserved = [0, 0]

/-! ## Register-identifier construction and classification
(kvm/aarch64/mod.rs:53-105)

The numeric constants are the kernel ABI values re-exported by
`kvm_bindings` (`arch/arm64/include/uapi/asm/kvm.h`). -/

def KVM_REG_ARM64 : Nat := 0x6000000000000000

def KVM_REG_SIZE_MASK : Nat := 0x00f0000000000000

def KVM_REG_SIZE_U32 : Nat := 0x0020000000000000

def KVM_REG_SIZE_U64 : Nat := 0x0030000000000000

def KVM_REG_SIZE_U128 : Nat := 0x0040000000000000

def KVM_REG_ARM_COPROC_MASK : Nat := 0x0fff0000

def KVM_REG_ARM_CORE : Nat := 0x00100000

/-- `arm64_core_reg_id!` (kvm/aarch64/mod.rs:53-83):
`KVM_REG_ARM64 | KVM_REG_ARM_CORE | size | (offset / size_of::<u32>())`. -/
def arm64_core_reg_id (size offset : Nat) : Nat :=
  KVM_REG_ARM64 ||| KVM_REG_ARM_CORE ||| size ||| offset / 4

/-- `is_system_register` (kvm/aarch64/mod.rs:92-105).  `none` models the
`assert!` firing (an identifier that is not a core register yet carries a
size tag other than 32 or 64 bits). -/
def is_system_register (regid : Nat) : Option Bool :=
  if regid &&& KVM_REG_ARM_COPROC_MASK = KVM_REG_ARM_CORE then
    some false
  else
    let size := regid &&& KVM_REG_SIZE_MASK
    if size = KVM_REG_SIZE_U32 ∨ size = KVM_REG_SIZE_U64 then
      some true
    else
      none

/-- The size of the native `kvm_regs` structure in bytes
(34 × 8 for `user_pt_regs`/`sp_el1`/`elr_el1`/`spsr`, plus 528 for
`user_fpsimd_state`): every core-register byte offset is below it. -/
def KVM_REGS_SIZE : Nat := 856

/-! ## Capability negotiator (kvm/aarch64/mod.rs:107-126) -/

/-- The `kvm_ioctls::Cap` values this layer consults.  `SetGuestDebug` is
required by the system but deliberately never checked (some kernels
implement it without advertising the flag). -/
inductive Cap where
  | ImmediateExit
  | Ioeventfd
  | Irqchip
  | Irqfd
  | IrqRouting
  | MpState
  | OneReg
  | UserMemory
  | SetGuestDebug
  deriving DecidableEq, Repr

/-- The capabilities demanded by `check_required_kvm_extensions`, in the
declared checking order. -/
def required_caps : List Cap :=
  [.ImmediateExit, .Ioeventfd, .Irqchip, .Irqfd, .IrqRouting, .MpState,
   .OneReg, .UserMemory]

/-- `check_required_kvm_extensions` (kvm/aarch64/mod.rs:107-126).  The host
handle is abstracted to its `check_extension` oracle; each `check_extension!`
expansion returns `Err(KvmError::CapabilityMissing(cap))` on the first
unavailable capability. -/
def check_required_kvm_extensions (check_extension : Cap → Bool) :
    Except Cap Unit :=
  if ¬ check_extension .ImmediateExit then .error .ImmediateExit
  else if ¬ check_extension .Ioeventfd then .error .Ioeventfd
  else if ¬ check_extension .Irqchip then .error .Irqchip
  else if ¬ check_extension .Irqfd then .error .Irqfd
  else if ¬ check_extension .IrqRouting then .error .IrqRouting
  else if ¬ check_extension .MpState then .error .MpState
  else if ¬ check_extension .OneReg then .error .OneReg
  else if ¬ check_extension .UserMemory then .error .UserMemory
  else .ok ()

/-! ## GIC construction (mshv/aarch64/gic/mod.rs) -/

/-- Modelled from the spec: the `dyn Vm` trait-object handle that
`MshvGicV3Its::new` downcasts (the `Vm` trait and `MshvVm`/`KvmVm` types
live outside the provided sources).  Per the spec it is a backend-tagged
handle; what matters here is only which concrete backend it carries. -/
inductive VmHandle where
  | kvm
  | mshv
  deriving DecidableEq, Repr

/-- Modelled from the spec: the GIC placement configuration
(`crate::arch::aarch64::gic::VgicConfig`, outside the provided sources);
its fields are exactly those read in mshv/aarch64/gic/mod.rs:45-53. -/
structure VgicConfig where
  dist_addr : Nat
  dist_size : Nat
  redists_addr : Nat
  redists_size : Nat
  msi_addr : Nat
  msi_size : Nat
  vcpu_count : Nat
  deriving DecidableEq, Repr

/-- `MshvGicV3Its` (mshv/aarch64/gic/mod.rs:12-33). -/
structure MshvGicV3Its where
  dist_addr : Nat
  dist_size : Nat
  redists_addr : Nat
  redists_size : Nat
  msi_addr : Nat
  msi_size : Nat
  vcpu_count : Nat
  deriving DecidableEq, Repr

/-- `MshvGicV3Its::new` (mshv/aarch64/gic/mod.rs:39-56).  `none` models the
`.expect("Wrong VM type?")` panic when the `downcast_ref::<MshvVm>` fails,
which happens before the `MshvGicV3Its` value is built; on an MSHV handle
the result is `Ok(gic_device)`. -/
def MshvGicV3Its.new (vm : VmHandle) (config : VgicConfig) :
    Option MshvGicV3Its :=
  match vm with
  | .mshv =>
      some { dist_addr := config.dist_addr
             dist_size := config.dist_size
             redists_addr := config.redists_addr
             redists_size := config.redists_size
             msi_addr := config.msi_addr
             msi_size := config.msi_size
             vcpu_count := config.vcpu_count }
  | .kvm => none

/-! ## Trapped-instruction emulator (mshv/aarch64/emulator.rs)

The syndrome bit-field extraction (`EsrEl2`, `IssDataAbort`,
`ExceptionClass` in `crate::arch::aarch64::regs`) and the MSHV native
register file (`mshv_bindings::StandardRegisters`) are outside the
provided sources, so they are modelled from the spec; the decode logic
itself follows emulator.rs line by line. -/

/-- `ExceptionClass::DATA_ABORT` — data abort without a change of
exception level (ESR_EL2.EC = 0b100101). -/
def EC_DATA_ABORT : Nat := 0x25

/-- `ExceptionClass::DATA_ABORT_LOWER` — data abort from a lower
exception level (ESR_EL2.EC = 0b100100). -/
def EC_DATA_ABORT_LOWER : Nat := 0x24

/-- Modelled from the spec: the decoded syndrome fields consumed by
`decode_with_syndrome` (the `EsrEl2`/`IssDataAbort` bit-field accessors
live outside the provided sources).  Field widths follow the spec:
`sas` is the 2-bit access-size exponent (access = `1 << sas` bytes) and
`srt` the 5-bit register operand (0–31). -/
structure SyndromeFields where
  ec : Nat
  il : Bool
  isv : Bool
  sas : Fin 4
  sse : Bool
  srt : Fin 32
  sf : Bool
  wnr : Bool
  deriving DecidableEq, Repr

/-- Modelled from the spec: the MSHV native register file reached through
`get_regs`/`set_regs`/`get_pc`/`set_pc` (`mshv_bindings::StandardRegisters`,
outside the provided sources).  Per the spec the general-purpose file has
slots 0–30 only (index 31 names the zero register and has no storage), so
`gpr` is a 31-element array; it is modelled as a list, and indexing it
follows Rust array semantics: an index not below the length is a fatal
bounds failure. -/
structure MshvStandardRegisters where
  gpr : List Nat
  sp : Nat
  pc : Nat
  pstate : Nat
  deriving DecidableEq, Repr

/-- One invocation of the VM-wide MMIO callbacks, recorded in order. -/
inductive MmioEvent where
  | read (gpa len : Nat)
  | write (gpa : Nat) (data : List Nat)
  deriving DecidableEq, Repr

/-- The `VmOps` MMIO callback contract consumed by the emulator:
`mmio_read gpa len` fills a `len`-byte buffer (modelled as returning its
contents), `mmio_write gpa data` consumes `data.length` bytes; `error`
is a device-model failure. -/
structure VmOps where
  mmio_read : Nat → Nat → Except Unit (List Nat)
  mmio_write : Nat → List Nat → Except Unit Unit

/-- `u64::to_ne_bytes` on the little-endian aarch64 target. -/
def u64_to_ne_bytes (x : Nat) : List Nat :=
  [x % 256, x / 2 ^ 8 % 256, x / 2 ^ 16 % 256, x / 2 ^ 24 % 256,
   x / 2 ^ 32 % 256, x / 2 ^ 40 % 256, x / 2 ^ 48 % 256, x / 2 ^ 56 % 256]

/-- `u64::from_ne_bytes` on the little-endian aarch64 target (each buffer
cell is a `u8`, hence the `% 256`). -/
def u64_from_ne_bytes (bs : List Nat) : Nat :=
  bs.foldr (fun b acc => b % 256 + 256 * acc) 0

/-- Reinterpret a `u64` bit pattern as an `i64` value. -/
def i64_of_u64 (x : Nat) : Int :=
  if x % 2 ^ 64 < 2 ^ 63 then (x % 2 ^ 64 : Int) else (x % 2 ^ 64 : Int) - 2 ^ 64

/-- Reinterpret an `i64` value as a `u64` bit pattern. -/
def u64_of_i64 (x : Int) : Nat := (x % 2 ^ 64).toNat

/-- `((data as i64) << shift >> shift) as u64` (emulator.rs:75): a left
shift that drops overflowed bits followed by an arithmetic right shift,
i.e. sign extension of the low `64 - shift` bits. -/
def shl_ashr_u64 (data shift : Nat) : Nat :=
  u64_of_i64 (Int.fdiv (i64_of_u64 (data * 2 ^ shift)) (2 ^ shift))

/-- Outcome of `decode_with_syndrome`: `not_handled` is the `false`
return, `handled regs` the `true` return after `vcpu.set_regs(&regs)`,
and `panics` a fatal abort (a failed `unwrap` or an out-of-bounds array
index).  An abort happens strictly before the final `set_regs`, so it
leaves the vCPU register file untouched. -/
inductive DecodeOutcome where
  | not_handled
  | handled (regs : MshvStandardRegisters)
  | panics
  deriving DecidableEq, Repr

/-- The common tail of `decode_with_syndrome` (emulator.rs:83-87):
read the PC, advance it by the instruction width (`il` distinguishes
32-bit from 16-bit encodings), store the general-purpose file back and
commit the whole register set. -/
def commit_regs (syn : SyndromeFields) (regs : MshvStandardRegisters)
    (gprs : List Nat) : MshvStandardRegisters :=
  { regs with
    pc := (if syn.il then regs.pc + 4 else regs.pc + 2) % 2 ^ 64
    gpr := gprs }

/-- `Emulator::decode_with_syndrome` (emulator.rs:31-90) as a function of
the decoded syndrome fields, the mapped guest-physical address
(`context.map.1`), the optional MMIO callbacks (`vcpu.vm_ops`) and the
register file fetched by `get_regs`.  Alongside the outcome it returns
the MMIO callback invocations that took place, in order. -/
def decode_with_syndrome (syn : SyndromeFields) (gpa : Nat)
    (vm_ops : Option VmOps) (regs : MshvStandardRegisters) :
    DecodeOutcome × List MmioEvent :=
  if syn.ec = EC_DATA_ABORT ∨ syn.ec = EC_DATA_ABORT_LOWER then
    if syn.isv then
      let len := 2 ^ (syn.sas : Nat)
      let sign_extend := syn.sse
      let reg_index := (syn.srt : Nat)
      let gprs := regs.gpr
      if syn.wnr then
        -- emulator.rs:51-63, `match reg_index { 0..=30 => gprs[..], 31 => 0 }`
        let value? : Option Nat :=
          if reg_index ≤ 30 then
            if reg_index < gprs.length then some (gprs.getD reg_index 0)
            else none
          else some 0
        match value? with
        | none => (.panics, [])
        | some v =>
          let chunk := (u64_to_ne_bytes v).take len
          match vm_ops with
          | some ops =>
            match ops.mmio_write gpa chunk with
            | .ok _ => (.handled (commit_regs syn regs gprs), [.write gpa chunk])
            | .error _ => (.panics, [.write gpa chunk])
          | none => (.handled (commit_regs syn regs gprs), [])
      else
        -- emulator.rs:64-81, read into a zeroed 8-byte buffer
        let filled : Option (List Nat) × List MmioEvent :=
          match vm_ops with
          | some ops =>
            match ops.mmio_read gpa len with
            | .ok bs => (some (bs ++ List.replicate (8 - len) 0), [.read gpa len])
            | .error _ => (none, [.read gpa len])
          | none => (some (List.replicate 8 0), [])
        match filled with
        | (none, events) => (.panics, events)
        | (some buffer, events) =>
          let data0 := u64_from_ne_bytes buffer
          let data1 :=
            if sign_extend then
              let d := shl_ashr_u64 data0 (64 - len * 8)
              if syn.sf then d else d % 2 ^ 32
            else data0
          -- emulator.rs:80, `gprs[reg_index as usize] = data` (unguarded)
          if reg_index < gprs.length then
            (.handled (commit_regs syn regs (gprs.set reg_index data1)), events)
          else (.panics, events)
    else (.not_handled, [])
  else (.not_handled, [])

/-- The register file the vCPU holds after `decode_with_syndrome`: only a
completed emulation (`handled`) reaches the final `vcpu.set_regs`. -/
def final_vcpu_regs (regs : MshvStandardRegisters) :
    DecodeOutcome → MshvStandardRegisters
  | .handled r => r
  | _ => regs

end HvSpec

namespace HvSpec

/-- C1: native→neutral→native and neutral→native→neutral round trips. -/
theorem kvm_regs_roundtrip
    (r : kvm_regs) (hr : r.valid)
    (n : StandardRegisters) (hsr : n.fpsr < 2 ^ 32) (hcr : n.fpcr < 2 ^ 32) :
    kvm_regs.from_standard (StandardRegisters.from_kvm r) = r ∧
    StandardRegisters.from_kvm (kvm_regs.from_standard n) = n := by
  obtain ⟨h1, h2, h3⟩ := hr
  constructor
  · simp only [kvm_regs.from_standard, StandardRegisters.from_kvm,
      Nat.mod_eq_of_lt h1, Nat.mod_eq_of_lt h2, ← h3]
  · simp only [kvm_regs.from_standard, StandardRegisters.from_kvm,
      Nat.mod_eq_of_lt hsr, Nat.mod_eq_of_lt hcr]

/-- C1 witness: both round trips hold at a concrete valid register pair. -/
theorem kvm_regs_roundtrip_witness :
    kvm_regs.valid
      { regs := { regs := [7], sp := 1, pc := 2, pstate := 3 }
        sp_el1 := 4, elr_el1 := 5, spsr := [6]
        fp_regs := { vregs := [8], fpsr := 9, fpcr := 10, reserved := [0, 0] } } ∧
    kvm_regs.from_standard (StandardRegisters.from_kvm
      { regs := { regs := [7], sp := 1, pc := 2, pstate := 3 }
        sp_el1 := 4, elr_el1 := 5, spsr := [6]
        fp_regs := { vregs := [8], fpsr := 9, fpcr := 10, reserved := [0, 0] } }) =
      { regs := { regs := [7], sp := 1, pc := 2, pstate := 3 }
        sp_el1 := 4, elr_el1 := 5, spsr := [6]
        fp_regs := { vregs := [8], fpsr := 9, fpcr := 10, reserved := [0, 0] } } ∧
    StandardRegisters.from_kvm (kvm_regs.from_standard
      { gpr := [7], sp := 1, pc := 2, pstate := 3, sp_el1 := 4, elr_el1 := 5
        spsr := [6], vregs := [8], fpsr := 9, fpcr := 10 }) =
      { gpr := [7], sp := 1, pc := 2, pstate := 3, sp_el1 := 4, elr_el1 := 5
        spsr := [6], vregs := [8], fpsr := 9, fpcr := 10 } := by
  refine ⟨⟨by decide, by decide, rfl⟩, ?_⟩
  have h := kvm_regs_roundtrip
    { regs := { regs := [7], sp := 1, pc := 2, pstate := 3 }
      sp_el1 := 4, elr_el1 := 5, spsr := [6]
      fp_regs := { vregs := [8], fpsr := 9, fpcr := 10, reserved := [0, 0] } }
    ⟨by decide, by decide, rfl⟩
    { gpr := [7], sp := 1, pc := 2, pstate := 3, sp_el1 := 4, elr_el1 := 5
      spsr := [6], vregs := [8], fpsr := 9, fpcr := 10 }
    (by decide) (by decide)
  exact h

set_option maxRecDepth 4096 in
/-- Helper: the coprocessor-mask bits of every identifier built by the
core-register rule equal `KVM_REG_ARM_CORE`, for any word offset below
256 and any of the three architectural size tags. -/
theorem core_id_coproc_bits :
    ∀ q < 256, ∀ size ∈ [KVM_REG_SIZE_U32, KVM_REG_SIZE_U64, KVM_REG_SIZE_U128],
      (KVM_REG_ARM64 ||| KVM_REG_ARM_CORE ||| size ||| q) &&&
          KVM_REG_ARM_COPROC_MASK = KVM_REG_ARM_CORE := by
  decide

/-- C8: core-built identifiers classify as non-system; non-core identifiers
with a 32- or 64-bit size tag classify as system; non-core identifiers with
any other size tag hit the fatal assertion (`none`). -/
theorem is_system_register_spec (size offset regid : Nat)
    (hsize : size = KVM_REG_SIZE_U32 ∨ size = KVM_REG_SIZE_U64 ∨
      size = KVM_REG_SIZE_U128)
    (hoff : offset < KVM_REGS_SIZE)
    (hclass : regid &&& KVM_REG_ARM_COPROC_MASK ≠ KVM_REG_ARM_CORE) :
    is_system_register (arm64_core_reg_id size offset) = some false ∧
    (regid &&& KVM_REG_SIZE_MASK = KVM_REG_SIZE_U32 ∨
        regid &&& KVM_REG_SIZE_MASK = KVM_REG_SIZE_U64 →
      is_system_register regid = some true) ∧
    (regid &&& KVM_REG_SIZE_MASK ≠ KVM_REG_SIZE_U32 ∧
        regid &&& KVM_REG_SIZE_MASK ≠ KVM_REG_SIZE_U64 →
      is_system_register regid = none) := by
  refine ⟨?_, ?_, ?_⟩
  · have hq : offset / 4 < 256 := by
      have : offset < 256 * 4 := lt_of_lt_of_le hoff (by norm_num [KVM_REGS_SIZE])
      omega
    have hmem : size ∈ [KVM_REG_SIZE_U32, KVM_REG_SIZE_U64, KVM_REG_SIZE_U128] := by
      rcases hsize with h | h | h <;> simp [h]
    have h := core_id_coproc_bits (offset / 4) hq size hmem
    simp [is_system_register, arm64_core_reg_id, h]
  · intro hs
    simp only [is_system_register, if_neg hclass]
    exact if_pos hs
  · intro ⟨h1, h2⟩
    simp only [is_system_register, if_neg hclass]
    exact if_neg (by simp [h1, h2])

/-- C8 witness: the rule applied to the 64-bit register at byte offset 8,
and a representative non-core identifier with a 64-bit size tag. -/
theorem is_system_register_spec_witness :
    is_system_register (arm64_core_reg_id KVM_REG_SIZE_U64 8) = some false ∧
    is_system_register 0x6030000000000000 = some true := by
  have h := is_system_register_spec KVM_REG_SIZE_U64 8 0x6030000000000000
    (Or.inr (Or.inl rfl)) (by decide) (by decide)
  exact ⟨h.1, h.2.1 (by decide)⟩

/-- Helper: `check_required_kvm_extensions` reports exactly the first
capability of the declared list the handle lacks, `ok` if none. -/
theorem check_eq_first_missing (f : Cap → Bool) :
    check_required_kvm_extensions f =
      (match required_caps.find? (fun c => ! f c) with
       | some c => Except.error c
       | none => Except.ok ()) := by
  cases h1 : f .ImmediateExit <;> cases h2 : f .Ioeventfd <;>
    cases h3 : f .Irqchip <;> cases h4 : f .Irqfd <;>
    cases h5 : f .IrqRouting <;> cases h6 : f .MpState <;>
    cases h7 : f .OneReg <;> cases h8 : f .UserMemory <;>
    simp [check_required_kvm_extensions, required_caps, List.find?,
      h1, h2, h3, h4, h5, h6, h7, h8]

/-- C7: the negotiator fails naming exactly the first missing capability of
the fixed declared order (succeeding when all eight are present), and its
verdict depends only on the eight required capabilities — in particular
guest-debug support is never consulted. -/
theorem check_required_kvm_extensions_spec (f g : Cap → Bool)
    (hagree : ∀ c ∈ required_caps, f c = g c) :
    check_required_kvm_extensions f =
      (match required_caps.find? (fun c => ! f c) with
       | some c => Except.error c
       | none => Except.ok ()) ∧
    check_required_kvm_extensions f = check_required_kvm_extensions g := by
  refine ⟨check_eq_first_missing f, ?_⟩
  rw [check_eq_first_missing f, check_eq_first_missing g]
  have h1 := hagree .ImmediateExit (by simp [required_caps])
  have h2 := hagree .Ioeventfd (by simp [required_caps])
  have h3 := hagree .Irqchip (by simp [required_caps])
  have h4 := hagree .Irqfd (by simp [required_caps])
  have h5 := hagree .IrqRouting (by simp [required_caps])
  have h6 := hagree .MpState (by simp [required_caps])
  have h7 := hagree .OneReg (by simp [required_caps])
  have h8 := hagree .UserMemory (by simp [required_caps])
  simp only [required_caps, List.find?, h1, h2, h3, h4, h5, h6, h7, h8]

/-- C7 witness: a handle with everything but `Irqfd` (the fourth required
capability) is reported as missing exactly `Irqfd`, and flipping its
guest-debug bit does not change the verdict. -/
theorem check_required_kvm_extensions_spec_witness :
    check_required_kvm_extensions (fun c => ! decide (c = .Irqfd)) =
      (match required_caps.find?
          (fun c => ! (fun c => ! decide (c = .Irqfd)) c) with
       | some c => Except.error c
       | none => Except.ok ()) ∧
    check_required_kvm_extensions (fun c => ! decide (c = .Irqfd)) =
      check_required_kvm_extensions
        (fun c => ! decide (c = .Irqfd) && ! decide (c = Cap.SetGuestDebug)) := by
  exact check_required_kvm_extensions_spec
    (fun c => ! decide (c = .Irqfd))
    (fun c => ! decide (c = .Irqfd) && ! decide (c = Cap.SetGuestDebug))
    (by decide)

/-- C9: constructing the MSHV GICv3-ITS against a non-MSHV VM handle fails
(the downcast panic) before any controller state is built; against an MSHV
handle it yields a controller whose placement fields and vCPU count are
exactly those of the supplied configuration. -/
theorem mshv_gic_new_spec (config : VgicConfig) :
    MshvGicV3Its.new .kvm config = none ∧
    MshvGicV3Its.new .mshv config =
      some { dist_addr := config.dist_addr
             dist_size := config.dist_size
             redists_addr := config.redists_addr
             redists_size := config.redists_size
             msi_addr := config.msi_addr
             msi_size := config.msi_size
             vcpu_count := config.vcpu_count } := by
  exact ⟨rfl, rfl⟩

/-- C6: a syndrome whose exception class is neither data-abort nor
data-abort-lower-EL, or one whose instruction-syndrome-valid bit is
clear, is reported not handled, with no MMIO callback invocation and no
register write-back (the `not_handled` outcome never reaches
`vcpu.set_regs`). -/
theorem decode_not_applicable_spec (syn : SyndromeFields) (gpa : Nat)
    (vm_ops : Option VmOps) (regs : MshvStandardRegisters) :
    (¬ (syn.ec = EC_DATA_ABORT ∨ syn.ec = EC_DATA_ABORT_LOWER) →
      decode_with_syndrome syn gpa vm_ops regs = (.not_handled, [])) ∧
    (syn.isv = false →
      decode_with_syndrome syn gpa vm_ops regs = (.not_handled, [])) := by
  constructor
  · intro h
    simp [decode_with_syndrome, h]
  · intro h
    simp [decode_with_syndrome, h]

/-- C6 witness: a trap with exception class 0x20 (instruction abort) is
left unhandled with no side effects. -/
theorem decode_not_applicable_spec_witness :
    decode_with_syndrome
      { ec := 0x20, il := true, isv := true, sas := 2, sse := false,
        srt := 0, sf := false, wnr := true } 0x2000 none
      { gpr := List.replicate 31 0, sp := 0, pc := 0, pstate := 0 } =
      (.not_handled, []) := by
  exact (decode_not_applicable_spec _ _ _ _).1 (by decide)

/-- C2: a data abort with a valid syndrome, sas = 2 (4 bytes), wnr = 1 and
srt = 5, on a vCPU whose register 5 holds 0xAABBCCDD11223344, delivers to
the MMIO-write callback exactly the 4 low-order bytes in native
(little-endian) order at the mapped guest-physical address, then advances
the PC by 4 when il = 1 and by 2 when il = 0. -/
theorem decode_write_srt5_spec (syn : SyndromeFields) (gpa : Nat)
    (ops : VmOps) (regs : MshvStandardRegisters)
    (hec : syn.ec = EC_DATA_ABORT ∨ syn.ec = EC_DATA_ABORT_LOWER)
    (hisv : syn.isv = true) (hsas : syn.sas = 2) (hwnr : syn.wnr = true)
    (hsrt : syn.srt = 5) (hlen : regs.gpr.length = 31)
    (hval : regs.gpr[5]? = some 0xAABBCCDD11223344)
    (hw : ops.mmio_write gpa [0x44, 0x33, 0x22, 0x11] = .ok ()) :
    decode_with_syndrome syn gpa (some ops) regs =
      (.handled { regs with
          pc := (if syn.il then regs.pc + 4 else regs.pc + 2) % 2 ^ 64 },
       [.write gpa [0x44, 0x33, 0x22, 0x11]]) := by
  have hbytes : (u64_to_ne_bytes 0xAABBCCDD11223344).take 4 =
      [0x44, 0x33, 0x22, 0x11] := by decide
  obtain ⟨ec, il, isv, sas, sse, srt, sf, wnr⟩ := syn
  simp only at hec hisv hsas hwnr hsrt ⊢
  subst hisv hsas hwnr hsrt
  have h5 : (((5 : Fin 32)) : Nat) = 5 := rfl
  have hlt5 : 5 < regs.gpr.length := by rw [hlen]; norm_num
  have hval5 : regs.gpr.get ⟨5, hlt5⟩ = 0xAABBCCDD11223344 := by
    rw [List.get_eq_getElem]
    rw [List.getElem?_eq_getElem hlt5] at hval
    exact Option.some.inj hval
  rw [List.get_eq_getElem] at hval5
  simp [decode_with_syndrome, if_pos hec, h5, hlen, commit_regs]
  simp [hval5, hbytes, hw]

/-- C2 witness: the write path at il = 1 on a concrete vCPU. -/
theorem decode_write_srt5_spec_witness :
    decode_with_syndrome
      { ec := 0x24, il := true, isv := true, sas := 2, sse := false,
        srt := 5, sf := false, wnr := true } 0x9000
      (some { mmio_read := fun _ n => .ok (List.replicate n 0)
              mmio_write := fun _ _ => .ok () })
      { gpr := (List.range 31).map (fun i => if i = 5 then 0xAABBCCDD11223344 else i)
        sp := 0, pc := 0x1000, pstate := 0 } =
      (.handled { gpr := (List.range 31).map
                    (fun i => if i = 5 then 0xAABBCCDD11223344 else i)
                  sp := 0, pc := 0x1004, pstate := 0 },
       [.write 0x9000 [0x44, 0x33, 0x22, 0x11]]) := by
  have h := decode_write_srt5_spec
    { ec := 0x24, il := true, isv := true, sas := 2, sse := false,
      srt := 5, sf := false, wnr := true } 0x9000
    { mmio_read := fun _ n => .ok (List.replicate n 0)
      mmio_write := fun _ _ => .ok () }
    { gpr := (List.range 31).map (fun i => if i = 5 then 0xAABBCCDD11223344 else i)
      sp := 0, pc := 0x1000, pstate := 0 }
    (Or.inr rfl) rfl rfl rfl rfl (by decide) (by decide) rfl
  exact h.trans (by decide)

/-- C3: a 1-byte read abort (sas = 0) with sign extension requested
(sse = 1) into a 32-bit destination (sf = 0), whose callback supplies the
byte 0xFF, stores 0xFFFFFFFF — sign-extended to 64 bits and then masked
to 32 bits — into the destination register, not 0xFFFFFFFFFFFFFFFF. -/
theorem decode_read_sign_extend_spec (syn : SyndromeFields) (gpa : Nat)
    (ops : VmOps) (regs : MshvStandardRegisters)
    (hec : syn.ec = EC_DATA_ABORT ∨ syn.ec = EC_DATA_ABORT_LOWER)
    (hisv : syn.isv = true) (hsas : syn.sas = 0) (hsse : syn.sse = true)
    (hsf : syn.sf = false) (hwnr : syn.wnr = false)
    (hsrt : (syn.srt : Nat) ≤ 30) (hlen : regs.gpr.length = 31)
    (hr : ops.mmio_read gpa 1 = .ok [0xFF]) :
    decode_with_syndrome syn gpa (some ops) regs =
      (.handled { regs with
          gpr := regs.gpr.set (syn.srt : Nat) 0xFFFFFFFF
          pc := (if syn.il then regs.pc + 4 else regs.pc + 2) % 2 ^ 64 },
       [.read gpa 1]) := by
  have hff : shl_ashr_u64 (u64_from_ne_bytes [0xFF, 0, 0, 0, 0, 0, 0, 0]) 56 %
      4294967296 = 0xFFFFFFFF := by decide
  obtain ⟨ec, il, isv, sas, sse, srt, sf, wnr⟩ := syn
  simp only at hec hisv hsas hsse hsf hwnr hsrt ⊢
  subst hisv hsas hsse hsf hwnr
  have hlt : (srt : Nat) < regs.gpr.length := by rw [hlen]; omega
  simp [decode_with_syndrome, if_pos hec, hr, hlt, hff, commit_regs]

/-- C3 witness: the sign-extending byte read at destination register 3. -/
theorem decode_read_sign_extend_spec_witness :
    decode_with_syndrome
      { ec := 0x25, il := true, isv := true, sas := 0, sse := true,
        srt := 3, sf := false, wnr := false } 0x9000
      (some { mmio_read := fun _ n => .ok (List.replicate n 0xFF)
              mmio_write := fun _ _ => .ok () })
      { gpr := List.replicate 31 0, sp := 0, pc := 0x1000, pstate := 0 } =
      (.handled { gpr := (List.replicate 31 0).set 3 0xFFFFFFFF
                  sp := 0, pc := 0x1004, pstate := 0 },
       [.read 0x9000 1]) := by
  have h := decode_read_sign_extend_spec
    { ec := 0x25, il := true, isv := true, sas := 0, sse := true,
      srt := 3, sf := false, wnr := false } 0x9000
    { mmio_read := fun _ n => .ok (List.replicate n 0xFF)
      mmio_write := fun _ _ => .ok () }
    { gpr := List.replicate 31 0, sp := 0, pc := 0x1000, pstate := 0 }
    (Or.inl rfl) rfl rfl rfl rfl rfl (by decide) (by decide) rfl
  exact h.trans (by decide)

/-- C4 evaluation: register index 31 on the write path reads as zero — the
callback receives zero-filled bytes of the access size and emulation
completes — but on the read path the source stores through `gprs[31]`
unguarded (emulator.rs:80), an out-of-bounds index on the 31-slot
general-purpose file: a fatal abort, not a discarded write. -/
theorem decode_reg31_eval :
    (decode_with_syndrome
        { ec := 0x24, il := true, isv := true, sas := 2, sse := false,
          srt := 31, sf := false, wnr := true } 0x9000
        (some { mmio_read := fun _ n => .ok (List.replicate n 0)
                mmio_write := fun _ _ => .ok () })
        { gpr := List.replicate 31 7, sp := 0, pc := 0x1000, pstate := 0 } =
      (.handled { gpr := List.replicate 31 7, sp := 0, pc := 0x1004, pstate := 0 },
       [.write 0x9000 [0, 0, 0, 0]])) ∧
    (decode_with_syndrome
        { ec := 0x24, il := true, isv := true, sas := 2, sse := false,
          srt := 31, sf := false, wnr := false } 0x9000
        (some { mmio_read := fun _ n => .ok (List.replicate n 0)
                mmio_write := fun _ _ => .ok () })
        { gpr := List.replicate 31 7, sp := 0, pc := 0x1000, pstate := 0 } =
      (.panics, [.read 0x9000 4])) := by
  exact ⟨rfl, rfl⟩

/-- C5 (amended): a failing MMIO callback is never silently dropped, but
it is not returned to the caller as a failure result either — the
`unwrap` turns it into a fatal abort.  The abort happens strictly before
the final register write-back, so the vCPU register file is left exactly
as it was (no partial update). -/
theorem decode_mmio_error_spec (syn : SyndromeFields) (gpa : Nat)
    (ops : VmOps) (regs : MshvStandardRegisters)
    (hec : syn.ec = EC_DATA_ABORT ∨ syn.ec = EC_DATA_ABORT_LOWER)
    (hisv : syn.isv = true) (hlen : regs.gpr.length = 31)
    (hwerr : ∀ a bs, ops.mmio_write a bs = .error ())
    (hrerr : ∀ a n, ops.mmio_read a n = .error ()) :
    (decode_with_syndrome syn gpa (some ops) regs).1 = .panics ∧
    final_vcpu_regs regs (decode_with_syndrome syn gpa (some ops) regs).1 =
      regs := by
  have h1 : (decode_with_syndrome syn gpa (some ops) regs).1 = .panics := by
    by_cases hw : syn.wnr = true
    · rcases le_or_lt (syn.srt : Nat) 30 with hle | hgt
      · have hlt : (syn.srt : Nat) < regs.gpr.length := by rw [hlen]; omega
        simp [decode_with_syndrome, if_pos hec, hisv, hw, hle, hlt, hwerr]
      · have hnle : ¬ ((syn.srt : Nat) ≤ 30) := Nat.not_le.mpr hgt
        simp [decode_with_syndrome, if_pos hec, hisv, hw, hnle, hwerr]
    · have hw' : syn.wnr = false := by simpa using hw
      simp [decode_with_syndrome, if_pos hec, hisv, hw', hrerr]
  exact ⟨h1, by rw [h1]; rfl⟩

/-- C5 witness: the abort-and-no-partial-update behaviour at a concrete
failing write. -/
theorem decode_mmio_error_spec_witness :
    (decode_with_syndrome
        { ec := 0x25, il := true, isv := true, sas := 2, sse := false,
          srt := 0, sf := false, wnr := true } 0x2000
        (some { mmio_read := fun _ _ => .error ()
                mmio_write := fun _ _ => .error () })
        { gpr := List.replicate 31 0, sp := 0, pc := 0, pstate := 0 }).1 =
      .panics ∧
    final_vcpu_regs
        { gpr := List.replicate 31 0, sp := 0, pc := 0, pstate := 0 }
        (decode_with_syndrome
          { ec := 0x25, il := true, isv := true, sas := 2, sse := false,
            srt := 0, sf := false, wnr := true } 0x2000
          (some { mmio_read := fun _ _ => .error ()
                  mmio_write := fun _ _ => .error () })
          { gpr := List.replicate 31 0, sp := 0, pc := 0, pstate := 0 }).1 =
      { gpr := List.replicate 31 0, sp := 0, pc := 0, pstate := 0 } := by
  exact decode_mmio_error_spec _ _ _ _ (Or.inl rfl) rfl (by decide)
    (fun _ _ => rfl) (fun _ _ => rfl)

/-- C5 counterexample: with a failing write callback on a decodable write
abort the function does not hand the device error back to its caller as a
result — its only result channels are the handled/not-handled return and
the register file — it aborts fatally instead. -/
theorem decode_mmio_error_cex :
    decode_with_syndrome
      { ec := 0x25, il := true, isv := true, sas := 2, sse := false,
        srt := 0, sf := false, wnr := true } 0x2000
      (some { mmio_read := fun _ _ => .error ()
              mmio_write := fun _ _ => .error () })
      { gpr := List.replicate 31 0, sp := 0, pc := 0, pstate := 0 } =
      (.panics, [.write 0x2000 [0, 0, 0, 0]]) := by
  exact rfl

/-- C10 (amended): with `vm_ops` absent, a decodable data abort performs
no MMIO access yet is still reported handled: the PC advances and, on the
read path for a destination register 0-30, the destination register
receives zero.  (A read decoding register index 31 instead hits the
unguarded `gprs[31]` store and aborts — see the counterexample.) -/
theorem decode_no_vm_ops_spec (syn : SyndromeFields) (gpa : Nat)
    (regs : MshvStandardRegisters)
    (hec : syn.ec = EC_DATA_ABORT ∨ syn.ec = EC_DATA_ABORT_LOWER)
    (hisv : syn.isv = true) (hlen : regs.gpr.length = 31)
    (hreg : syn.wnr = true ∨ (syn.srt : Nat) ≤ 30) :
    decode_with_syndrome syn gpa none regs =
      (.handled { regs with
          gpr := if syn.wnr then regs.gpr else regs.gpr.set (syn.srt : Nat) 0
          pc := (if syn.il then regs.pc + 4 else regs.pc + 2) % 2 ^ 64 },
       []) := by
  by_cases hw : syn.wnr = true
  · rcases le_or_lt (syn.srt : Nat) 30 with hle | hgt
    · have hlt : (syn.srt : Nat) < regs.gpr.length := by rw [hlen]; omega
      simp [decode_with_syndrome, if_pos hec, hisv, hw, hle, hlt, commit_regs]
    · have hnle : ¬ ((syn.srt : Nat) ≤ 30) := Nat.not_le.mpr hgt
      simp [decode_with_syndrome, if_pos hec, hisv, hw, hnle, commit_regs]
  · have hw' : syn.wnr = false := by simpa using hw
    have hle : (syn.srt : Nat) ≤ 30 := by
      rcases hreg with h | h
      · exact absurd h hw
      · exact h
    have hlt : (syn.srt : Nat) < regs.gpr.length := by rw [hlen]; omega
    have hz : ∀ s, shl_ashr_u64 0 s = 0 := by
      intro s
      simp [shl_ashr_u64, i64_of_u64, u64_of_i64, Int.zero_fdiv]
    simp [decode_with_syndrome, if_pos hec, hisv, hw', hlt,
      u64_from_ne_bytes, hz, commit_regs]

/-- C10 witness: a 1-byte sign-extending read with no callbacks present
zeroes destination register 3 and advances the PC. -/
theorem decode_no_vm_ops_spec_witness :
    decode_with_syndrome
      { ec := 0x24, il := true, isv := true, sas := 0, sse := true,
        srt := 3, sf := false, wnr := false } 0x9000 none
      { gpr := List.replicate 31 7, sp := 0, pc := 0x1000, pstate := 0 } =
      (.handled { gpr := (List.replicate 31 7).set 3 0
                  sp := 0, pc := 0x1004, pstate := 0 }, []) := by
  have h := decode_no_vm_ops_spec
    { ec := 0x24, il := true, isv := true, sas := 0, sse := true,
      srt := 3, sf := false, wnr := false } 0x9000
    { gpr := List.replicate 31 7, sp := 0, pc := 0x1000, pstate := 0 }
    (Or.inr rfl) rfl (by decide) (Or.inr (by decide))
  exact h.trans (by decide)

/-- C10 counterexample: with `vm_ops` absent a read abort decoding
register index 31 is not reported handled — the unguarded `gprs[31]`
store aborts — refuting the claim for that in-scope syndrome. -/
theorem decode_no_vm_ops_cex :
    decode_with_syndrome
      { ec := 0x24, il := true, isv := true, sas := 0, sse := false,
        srt := 31, sf := false, wnr := false } 0x9000 none
      { gpr := List.replicate 31 7, sp := 0, pc := 0x1000, pstate := 0 } =
      (.panics, []) := by
  exact rfl

end HvSpec
